import Mathlib

set_option maxRecDepth 4000

/-!
Shallow embedding of arrive (src/arrive/map_environment.py): a single
utility, show_on_basemap, that classifies a geospatial file by extension,
loads it through library calls, and renders it over a basemap.

Library calls (geopandas, rasterio, contextily, matplotlib) are modelled
as oracles in an Env record, each returning an Except so that library
failures can be propagated exactly as the Python code propagates
exceptions.  Every run produces an event trace recording the order of
external calls, which lets us state ordering, resource-handling and
absence properties.
-/

namespace Arrive

/-- Bounding box as returned by gdf.total_bounds or src.bounds:
(minx, miny, maxx, maxy).  Coordinates are modelled as integers. -/
structure Bounds where
  minx : Int
  miny : Int
  maxx : Int
  maxy : Int
deriving DecidableEq

/-- A geopandas GeoDataFrame: abstract geometry payload plus an optional
EPSG coordinate reference system (None models a missing CRS). -/
structure GeoDataFrame where
  geom : Nat
  crs : Option Nat
deriving DecidableEq

/-- A rasterio dataset handle: abstract id, native CRS (possibly absent)
and native bounds. -/
structure RasterSrc where
  rid : Nat
  crs : Option Nat
  bounds : Bounds
deriving DecidableEq

/-- The crs argument handed to contextily.add_basemap: either a CRS
object carrying an EPSG code (vector path) or a literal string
(raster path passes the string EPSG: 3857). -/
inductive CrsArg where
  | epsg (code : Nat)
  | text (s : String)
deriving DecidableEq

/-- An error raised by one of the underlying libraries; kind and msg are
carried through unchanged when the wrapper propagates it. -/
structure LibError where
  kind : String
  msg : String
deriving DecidableEq

/-- The errors a call to show_on_basemap can surface: the two errors the
function itself raises (FileNotFoundError, ValueError) and any library
error, propagated unchanged. -/
inductive ArriveError where
  | fileNotFound (msg : String)
  | valueError (msg : String)
  | libError (e : LibError)
deriving DecidableEq

/-- Events recording external calls and figure construction, in program
order.  reprojectRasterGrid is the event an in-memory reprojection of a
raster pixel grid would emit; the code never emits it. -/
inductive Event where
  | checkExists (p : String)
  | readFile (p : String)
  | setDefaultCrs (epsg : Nat)
  | toCrs (src dst : Nat)
  | newFigure
  | plotVector
  | addBasemap (frame : Nat)
  | openRaster (p : String)
  | showRaster (rid : Nat)
  | transformBounds
  | newAxes
  | reprojectRasterGrid
  | closeRaster
deriving DecidableEq

/-- Which events are calls into a geospatial or network library (as
opposed to the existence check and local figure construction). -/
def Event.isLibCall : Event → Bool
  | .readFile _ => true
  | .setDefaultCrs _ => true
  | .toCrs _ _ => true
  | .plotVector => true
  | .addBasemap _ => true
  | .openRaster _ => true
  | .showRaster _ => true
  | .transformBounds => true
  | .reprojectRasterGrid => true
  | .closeRaster => true
  | _ => false

/-- The oracle record standing for the third-party libraries and the
filesystem.  Each fallible call returns Except LibError. -/
structure Env where
  path_exists : String → Bool
  read_file : String → Except LibError GeoDataFrame
  to_crs : Nat → Nat → Nat → Except LibError Nat
  total_bounds : Nat → Bounds
  plot_vector : Nat → Nat → Except LibError Unit
  add_basemap : CrsArg → Bool → Except LibError Unit
  rasterio_open : String → Except LibError RasterSrc
  show_raster : Nat → Nat → Except LibError Unit
  transform_bounds : Option Nat → String → Bounds → Except LibError Bounds

/-! ### Path model (pathlib.PurePosixPath name and suffix) -/

/-- Split a character list at every slash. -/
def splitSlash : List Char → List (List Char)
  | [] => [[]]
  | c :: cs =>
    let r := splitSlash cs
    if c = '/' then [] :: r
    else
      match r with
      | [] => [[c]]
      | h :: t => (c :: h) :: t

/-- The final component of a POSIX path: last non-empty slash-separated
segment (empty for the root or the empty path). -/
def pyName (p : String) : List Char :=
  ((splitSlash p.data).filter (fun s => !s.isEmpty)).getLastD []

/-- Index of the last occurrence of a dot in a character list. -/
def lastDotIdx : List Char → Option Nat
  | [] => none
  | c :: cs =>
    match lastDotIdx cs with
    | some i => some (i + 1)
    | none => if c = '.' then some 0 else none

/-- pathlib suffix: the part of the name from its last dot, provided the
dot is neither the first nor the last character; empty otherwise. -/
def pySuffix (p : String) : String :=
  let name := pyName p
  match lastDotIdx name with
  | some i => if 0 < i ∧ i + 1 < name.length then String.mk (name.drop i) else ""
  | none => ""

/-- Python str.lower restricted to ASCII, which covers all extensions. -/
def strLower (s : String) : String := String.mk (s.data.map Char.toLower)

/-! ### The dispatcher (_is_raster, _is_vector) -/

def rasterExts : List String := [".tif", ".tiff", ".geotiff"]

def vectorExts : List String := [".shp", ".geojson", ".json", ".gpkg", ".fgb"]

def _is_raster (p : String) : Bool :=
  rasterExts.contains (strLower (pySuffix p))

def _is_vector (p : String) : Bool :=
  vectorExts.contains (strLower (pySuffix p))

/-! ### Figure and axes model -/

/-- The observable state of one matplotlib Axes at return time: limits
(None until set by this code or by rasterio show), artist z-order
(matplotlib default 0), patch alpha (default 1) and frame visibility. -/
structure AxesState where
  xlim : Option (Int × Int)
  ylim : Option (Int × Int)
  zorder : Int
  patchAlpha : Int
  frameon : Bool
deriving DecidableEq

/-- Which of the two possible Axes a value designates. -/
inductive Frame where
  | primaryF
  | basemapF
deriving DecidableEq

/-- The figure and axes returned on success: the primary data frame, the
optional second basemap frame (raster case only), and which frame is the
ax of the returned (fig, ax) pair. -/
structure Output where
  figsize : Nat × Nat
  primary : AxesState
  basemap : Option AxesState
  returned : Frame
deriving DecidableEq

/-- Sibling Axes of one figure draw in increasing zorder, ties broken by
creation order (the primary frame is created first). -/
def framesInDrawOrder (o : Output) : List Frame :=
  match o.basemap with
  | none => [Frame.primaryF]
  | some bm =>
    if bm.zorder < o.primary.zorder then [Frame.basemapF, Frame.primaryF]
    else [Frame.primaryF, Frame.basemapF]

deriving instance DecidableEq for Except

/-- The result of one call: the trace of external calls in program order
and either the returned figure description or the raised error. -/
structure RunResult where
  trace : List Event
  out : Except ArriveError Output
deriving DecidableEq

/-! ### The loaders -/

/-- _load_vector: read the file, default a missing CRS to EPSG 4326,
then reproject to EPSG 3857.  Returns the trace of library calls and
either the reprojected GeoDataFrame or the propagated library error. -/
def _load_vector (env : Env) (path : String) :
    List Event × Except LibError GeoDataFrame :=
  match env.read_file path with
  | .error e => ([Event.readFile path], .error e)
  | .ok gdf0 =>
    let setEvts : List Event :=
      match gdf0.crs with
      | none => [Event.setDefaultCrs 4326]
      | some _ => []
    let gdf1 : GeoDataFrame :=
      match gdf0.crs with
      | none => { gdf0 with crs := some 4326 }
      | some _ => gdf0
    let srcCrs := gdf1.crs.getD 4326
    match env.to_crs srcCrs 3857 gdf1.geom with
    | .error e =>
      (Event.readFile path :: setEvts ++ [Event.toCrs srcCrs 3857], .error e)
    | .ok g2 =>
      (Event.readFile path :: setEvts ++ [Event.toCrs srcCrs 3857],
       .ok { geom := g2, crs := some 3857 })

/-- _load_raster: open the dataset handle; the pixel grid is not read or
reprojected here. -/
def _load_raster (env : Env) (path : String) :
    List Event × Except LibError RasterSrc :=
  match env.rasterio_open path with
  | .error e => ([Event.openRaster path], .error e)
  | .ok src => ([Event.openRaster path], .ok src)

/-! ### show_on_basemap -/

/-- A single quote character, used in the ValueError message. -/
def squo : String := String.mk [Char.ofNat 39]

/-- The FileNotFoundError message raised for a missing path. -/
def notFoundMsg (p : String) : String :=
  "Could not find " ++ p ++ "."

/-- The ValueError message raised for an unrecognized extension: it names
the suffix and lists the supported vector and raster extensions. -/
def unrecognizedMsg (p : String) : String :=
  "Filetype " ++ squo ++ pySuffix p ++ squo ++ " not recognized. " ++
    "Supported vectors: .shp .geojson .json .gpkg .fgb; " ++
    "Supported rasters: .tif .tiff .geotiff"

/-- show_on_basemap: dispatch on extension, load, render over basemap
tiles, return (fig, ax).  Mirrors the Python control flow statement by
statement; each external call appends its event to the trace. -/
def show_on_basemap (env : Env) (data_path : String)
    (layer_kwargs : Option Nat) (figsize : Nat × Nat)
    (add_attribution : Bool) : RunResult :=
  let path := data_path
  if env.path_exists path = false then
    { trace := [Event.checkExists path]
      out := .error (.fileNotFound (notFoundMsg path)) }
  else
    let kw := layer_kwargs.getD 0
    if _is_vector path then
      let pre := [Event.checkExists path]
      match _load_vector env path with
      | (evts, .error e) =>
        { trace := pre ++ evts, out := .error (.libError e) }
      | (evts, .ok gdf) =>
        let pre := pre ++ evts ++ [Event.newFigure]
        match env.plot_vector gdf.geom kw with
        | .error e =>
          { trace := pre ++ [Event.plotVector], out := .error (.libError e) }
        | .ok _ =>
          let pre := pre ++ [Event.plotVector]
          match env.add_basemap (.epsg (gdf.crs.getD 0)) add_attribution with
          | .error e =>
            { trace := pre ++ [Event.addBasemap 0], out := .error (.libError e) }
          | .ok _ =>
            let b := env.total_bounds gdf.geom
            { trace := pre ++ [Event.addBasemap 0]
              out := .ok
                { figsize := figsize
                  primary :=
                    { xlim := some (b.minx, b.maxx)
                      ylim := some (b.miny, b.maxy)
                      zorder := 0, patchAlpha := 1, frameon := true }
                  basemap := none
                  returned := Frame.primaryF } }
    else if _is_raster path then
      let pre := [Event.checkExists path]
      match _load_raster env path with
      | (evts, .error e) =>
        { trace := pre ++ evts, out := .error (.libError e) }
      | (evts, .ok src) =>
        let pre := pre ++ evts ++ [Event.newFigure]
        match env.show_raster src.rid kw with
        | .error e =>
          { trace := pre ++ [Event.showRaster src.rid]
            out := .error (.libError e) }
        | .ok _ =>
          let pre := pre ++ [Event.showRaster src.rid]
          match env.transform_bounds src.crs "EPSG: 3857" src.bounds with
          | .error e =>
            { trace := pre ++ [Event.transformBounds]
              out := .error (.libError e) }
          | .ok b3857 =>
            let pre := pre ++ [Event.transformBounds, Event.newAxes]
            match env.add_basemap (.text "EPSG: 3857") add_attribution with
            | .error e =>
              { trace := pre ++ [Event.addBasemap 1]
                out := .error (.libError e) }
            | .ok _ =>
              { trace := pre ++ [Event.addBasemap 1, Event.closeRaster]
                out := .ok
                  { figsize := figsize
                    primary :=
                      { xlim := some (src.bounds.minx, src.bounds.maxx)
                        ylim := some (src.bounds.miny, src.bounds.maxy)
                        zorder := 2, patchAlpha := 0, frameon := true }
                    basemap := some
                      { xlim := some (b3857.minx, b3857.maxx)
                        ylim := some (b3857.miny, b3857.maxy)
                        zorder := 0, patchAlpha := 1, frameon := false }
                    returned := Frame.primaryF } }
    else
      { trace := [Event.checkExists path]
        out := .error (.valueError (unrecognizedMsg path)) }

/-! ### A substring predicate, for claims about error message contents -/

/-- sub occurs contiguously inside s. -/
def strContains (s sub : String) : Prop :=
  List.IsInfix sub.data s.data

/-! ### Persistent state across calls -/

/-- The state that outlives one call: the read-only library and
filesystem oracles, plus what a call can leak (open rasterio handles)
or accumulate (pyplot figures). -/
structure World where
  env : Env
  openHandles : Nat
  figures : Nat

def countOpens (t : List Event) : Nat :=
  (t.filter fun e => match e with | .openRaster _ => true | _ => false).length

def countCloses (t : List Event) : Nat :=
  (t.filter fun e => match e with | .closeRaster => true | _ => false).length

def countFigures (t : List Event) : Nat :=
  (t.filter fun e => match e with | .newFigure => true | _ => false).length

/-- How one finished call changes the persistent state: handles stay
open when not closed and figures accumulate, but the oracles (the only
state a call reads) are untouched. -/
def applyRun (w : World) (r : RunResult) : World :=
  { env := w.env
    openHandles := w.openHandles + countOpens r.trace - countCloses r.trace
    figures := w.figures + countFigures r.trace }

/-! ### Concrete environments used to evaluate the theorems -/

def demoErr : LibError := { kind := "RasterioIOError", msg := "bad magic" }

/-- All library calls succeed; the vector file carries no CRS. -/
def envDemo : Env :=
  { path_exists := fun _ => true
    read_file := fun _ => .ok { geom := 1, crs := none }
    to_crs := fun _ _ g => .ok (g + 100)
    total_bounds := fun g => { minx := Int.ofNat g, miny := 0, maxx := Int.ofNat g + 10, maxy := 20 }
    plot_vector := fun _ _ => .ok ()
    add_basemap := fun _ _ => .ok ()
    rasterio_open := fun _ =>
      .ok { rid := 7, crs := some 32633, bounds := { minx := 0, miny := 1, maxx := 2, maxy := 3 } }
    show_raster := fun _ _ => .ok ()
    transform_bounds := fun _ _ b =>
      .ok { minx := b.minx * 3, miny := b.miny * 3, maxx := b.maxx * 3, maxy := b.maxy * 3 } }

/-- As envDemo but no path exists. -/
def envNoFile : Env := { envDemo with path_exists := fun _ => false }

/-- As envDemo but reading a vector file fails. -/
def envReadFail : Env := { envDemo with read_file := fun _ => .error demoErr }

/-- As envDemo but drawing the raster fails (after the handle opened). -/
def envShowFail : Env := { envDemo with show_raster := fun _ _ => .error demoErr }

/-! ### Helper lemmas -/

lemma is_vector_iff (p : String) :
    _is_vector p = true ↔ strLower (pySuffix p) ∈ vectorExts := by
  simp only [_is_vector]; exact List.elem_iff

lemma is_raster_iff (p : String) :
    _is_raster p = true ↔ strLower (pySuffix p) ∈ rasterExts := by
  simp only [_is_raster]; exact List.elem_iff

lemma raster_not_vector {s : String} (h : s ∈ rasterExts) : s ∉ vectorExts := by
  simp only [rasterExts, List.mem_cons, List.not_mem_nil, or_false] at h
  rcases h with rfl | rfl | rfl <;> decide

lemma vector_not_raster {s : String} (h : s ∈ vectorExts) : s ∉ rasterExts := by
  simp only [vectorExts, List.mem_cons, List.not_mem_nil, or_false] at h
  rcases h with rfl | rfl | rfl | rfl | rfl <;> decide

lemma is_vector_false_of_raster {p : String} (h : _is_raster p = true) :
    _is_vector p = false := by
  cases hb : _is_vector p
  · rfl
  · exact absurd ((is_raster_iff p).mp h) (vector_not_raster ((is_vector_iff p).mp hb))

lemma readFile_mem_load_vector (env : Env) (p : String) :
    Event.readFile p ∈ (_load_vector env p).1 := by
  unfold _load_vector
  rcases env.read_file p with e | g
  · simp
  · rcases g.crs with _ | c <;> dsimp only <;> split <;> simp

lemma load_raster_trace (env : Env) (p : String) :
    (_load_raster env p).1 = [Event.openRaster p] := by
  unfold _load_raster
  rcases env.rasterio_open p with e | s <;> rfl

lemma load_raster_ok {env : Env} {p : String} {src : RasterSrc}
    (h : env.rasterio_open p = .ok src) :
    _load_raster env p = ([Event.openRaster p], .ok src) := by
  unfold _load_raster
  rw [h]

lemma reproject_not_mem_load_vector (env : Env) (p : String) :
    Event.reprojectRasterGrid ∉ (_load_vector env p).1 := by
  unfold _load_vector
  rcases env.read_file p with e | g
  · simp
  · rcases hc : g.crs with _ | c <;> simp only [hc] <;> split <;> simp

lemma no_reproject_event (env : Env) (p : String) (k : Option Nat) (fs : Nat × Nat)
    (att : Bool) :
    Event.reprojectRasterGrid ∉ (show_on_basemap env p k fs att).trace := by
  unfold show_on_basemap
  by_cases hex : env.path_exists p = false
  · simp [hex]
  · rw [if_neg hex]
    by_cases hv : _is_vector p = true
    · simp only [hv, if_true]
      have hm := reproject_not_mem_load_vector env p
      rcases hlv : _load_vector env p with ⟨evts, lout⟩
      rw [hlv] at hm
      rcases lout with e | gdf
      · simp [hm]
      · rcases hplot : env.plot_vector gdf.geom (k.getD 0) with e | u
        · simp [hplot, hm]
        · rcases hbm : env.add_basemap (.epsg (gdf.crs.getD 0)) att with e | u <;>
            simp [hplot, hbm, hm]
    · simp only [hv]
      by_cases hr : _is_raster p = true
      · simp only [hr, if_true, if_false, Bool.false_eq_true]
        have hlt := load_raster_trace env p
        rcases hlr : _load_raster env p with ⟨evts, lout⟩
        rw [hlr] at hlt
        subst hlt
        rcases lout with e | src
        · simp
        · rcases hsr : env.show_raster src.rid (k.getD 0) with e | u
          · simp [hsr]
          · rcases htb : env.transform_bounds src.crs "EPSG: 3857" src.bounds with e | b
            · simp [hsr, htb]
            · rcases hbm : env.add_basemap (.text "EPSG: 3857") att with e | u <;>
                simp [hsr, htb, hbm]
      · simp [hr, hv]

lemma load_vector_error {env : Env} {p : String} {evts : List Event} {e : LibError}
    (h : _load_vector env p = (evts, .error e)) :
    env.read_file p = .error e ∨ ∃ c g, env.to_crs c 3857 g = .error e := by
  unfold _load_vector at h
  rcases hr : env.read_file p with e0 | g0 <;> rw [hr] at h
  · left
    simp only [Prod.mk.injEq, Except.error.injEq] at h
    rw [h.2]
  · rcases hc : g0.crs with _ | c <;> simp only [hc] at h <;>
      rcases ht : env.to_crs _ 3857 g0.geom with e0 | g2 <;> rw [ht] at h <;>
        simp only [Prod.mk.injEq, Except.error.injEq] at h
    · exact Or.inr ⟨_, _, by rw [ht, h.2]⟩
    · exact absurd h.2 (by simp)
    · exact Or.inr ⟨_, _, by rw [ht, h.2]⟩
    · exact absurd h.2 (by simp)

lemma strContains_of_parts (s a b c : String) (h : s.data = a.data ++ b.data ++ c.data) :
    strContains s b := ⟨a.data, c.data, h.symm⟩

lemma strContains_mono {s b : String} (sub : String)
    (h1 : strContains b sub) (h2 : strContains s b) : strContains s sub :=
  List.IsInfix.trans h1 h2

instance decStrContains (s sub : String) : Decidable (strContains s sub) :=
  inferInstanceAs (Decidable (List.IsInfix sub.data s.data))

/-- The fixed tail of the ValueError message, listing the supported
extensions. -/
def suppTail : String :=
  "Supported vectors: .shp .geojson .json .gpkg .fgb; " ++
    "Supported rasters: .tif .tiff .geotiff"

lemma msg_parts_mid (p : String) :
    (unrecognizedMsg p).data =
      ("Filetype " ++ squo ++ pySuffix p ++ squo).data ++
        (" not recognized. ").data ++ suppTail.data := by
  simp [unrecognizedMsg, suppTail, String.data_append, List.append_assoc]

lemma msg_parts_suffix (p : String) :
    (unrecognizedMsg p).data =
      ("Filetype " ++ squo).data ++ (pySuffix p).data ++
        (squo ++ " not recognized. " ++ suppTail).data := by
  simp [unrecognizedMsg, suppTail, String.data_append, List.append_assoc]

lemma msg_parts_tail (p : String) :
    (unrecognizedMsg p).data =
      ("Filetype " ++ squo ++ pySuffix p ++ squo ++ " not recognized. ").data ++
        suppTail.data ++ "".data := by
  simp [unrecognizedMsg, suppTail, String.data_append, List.append_assoc]

/-! ### Claims -/

/-- C1: for every existing path whose lowercased final extension is a
vector extension the dispatcher takes the vector branch (the vector
reader is invoked on the path); for a raster extension it takes the
raster branch (the raster dataset is opened); for any other extension
the call fails with a ValueError whose message contains the words
not recognized, names the Python suffix of the path, and lists every
supported extension. -/
theorem c1_dispatch_classification (env : Env) (p : String) (k : Option Nat)
    (fs : Nat × Nat) (att : Bool) (hex : env.path_exists p = true) :
    (strLower (pySuffix p) ∈ vectorExts →
        Event.readFile p ∈ (show_on_basemap env p k fs att).trace) ∧
    (strLower (pySuffix p) ∈ rasterExts →
        Event.openRaster p ∈ (show_on_basemap env p k fs att).trace) ∧
    (strLower (pySuffix p) ∉ vectorExts → strLower (pySuffix p) ∉ rasterExts →
        (show_on_basemap env p k fs att).out = .error (.valueError (unrecognizedMsg p)) ∧
        strContains (unrecognizedMsg p) "not recognized" ∧
        strContains (unrecognizedMsg p) (pySuffix p) ∧
        (∀ e ∈ vectorExts ++ rasterExts, strContains (unrecognizedMsg p) e)) := by
  refine ⟨?_, ?_, ?_⟩
  · intro hmem
    have hvec : _is_vector p = true := (is_vector_iff p).mpr hmem
    have hm := readFile_mem_load_vector env p
    unfold show_on_basemap
    simp only [hex, hvec, Bool.true_eq_false, if_false, if_true]
    rcases hlv : _load_vector env p with ⟨evts, lout⟩
    rw [hlv] at hm
    rcases lout with e | gdf
    · simp [hm]
    · rcases hplot : env.plot_vector gdf.geom (k.getD 0) with e | u
      · simp [hplot, hm]
      · rcases hbm : env.add_basemap (.epsg (gdf.crs.getD 0)) att with e | u <;>
          simp [hplot, hbm, hm]
  · intro hmem
    have hras : _is_raster p = true := (is_raster_iff p).mpr hmem
    have hvec : _is_vector p = false := by
      cases hb : _is_vector p
      · rfl
      · exact absurd ((is_vector_iff p).mp hb) (raster_not_vector hmem)
    unfold show_on_basemap
    simp only [hex, hvec, hras, Bool.true_eq_false, Bool.false_eq_true, if_false, if_true]
    have hlt := load_raster_trace env p
    rcases hlr : _load_raster env p with ⟨evts, lout⟩
    rw [hlr] at hlt
    subst hlt
    rcases lout with e | src
    · simp
    · rcases hsr : env.show_raster src.rid (k.getD 0) with e | u
      · simp [hsr]
      · rcases htb : env.transform_bounds src.crs "EPSG: 3857" src.bounds with e | b
        · simp [hsr, htb]
        · rcases hbm : env.add_basemap (.text "EPSG: 3857") att with e | u <;>
            simp [hsr, htb, hbm]
  · intro hnv hnr
    have hvec : _is_vector p = false := by
      cases hb : _is_vector p
      · rfl
      · exact absurd ((is_vector_iff p).mp hb) hnv
    have hras : _is_raster p = false := by
      cases hb : _is_raster p
      · rfl
      · exact absurd ((is_raster_iff p).mp hb) hnr
    refine ⟨?_, ?_, ?_, ?_⟩
    · unfold show_on_basemap
      simp [hex, hvec, hras]
    · exact strContains_mono _ (by decide)
        (strContains_of_parts _ _ _ _ (msg_parts_mid p))
    · exact strContains_of_parts _ _ _ _ (msg_parts_suffix p)
    · intro e he
      have htail : strContains (unrecognizedMsg p) suppTail :=
        strContains_of_parts _ _ _ _ (msg_parts_tail p)
      simp only [vectorExts, rasterExts, List.mem_append, List.mem_cons,
        List.not_mem_nil, or_false] at he
      rcases he with ((rfl | rfl | rfl | rfl | rfl) | (rfl | rfl | rfl)) <;>
        exact strContains_mono _ (by decide) htail

/-- C1 witness: instantiated at a concrete unsupported path. -/
theorem c1_dispatch_classification_witness :
    (show_on_basemap envDemo "a.xyz" none (10, 10) true).out =
      .error (.valueError (unrecognizedMsg "a.xyz")) ∧
    strContains (unrecognizedMsg "a.xyz") "not recognized" := by
  have h := (c1_dispatch_classification envDemo "a.xyz" none (10, 10) true rfl).2.2
    (by decide) (by decide)
  exact ⟨h.1, h.2.1⟩

/-- C2: a non-existent path is rejected with the FileNotFoundError before
anything else happens: the trace holds only the existence check, so no
classification and no library call was attempted. -/
theorem c2_missing_file_rejected_first (env : Env) (p : String) (k : Option Nat)
    (fs : Nat × Nat) (att : Bool) (h : env.path_exists p = false) :
    (show_on_basemap env p k fs att).out = .error (.fileNotFound (notFoundMsg p)) ∧
    (show_on_basemap env p k fs att).trace = [Event.checkExists p] ∧
    (∀ e ∈ (show_on_basemap env p k fs att).trace, e.isLibCall = false) := by
  unfold show_on_basemap
  simp [h, Event.isLibCall]

/-- C2 witness: instantiated at an environment where no path exists. -/
theorem c2_missing_file_rejected_first_witness :
    (show_on_basemap envNoFile "a.shp" none (10, 10) true).out =
      .error (.fileNotFound (notFoundMsg "a.shp")) ∧
    (show_on_basemap envNoFile "a.shp" none (10, 10) true).trace =
      [Event.checkExists "a.shp"] := by
  have h := c2_missing_file_rejected_first envNoFile "a.shp" none (10, 10) true rfl
  exact ⟨h.1, h.2.1⟩

/-- C3: whenever _load_vector succeeds its result carries EPSG 3857, and
a source lacking a CRS is first assigned EPSG 4326 and then reprojected
from 4326 to 3857, in that order. -/
theorem c3_vector_crs_always_3857 (env : Env) (p : String) :
    (∀ gdf, (_load_vector env p).2 = .ok gdf → gdf.crs = some 3857) ∧
    (∀ g0, env.read_file p = .ok g0 → g0.crs = none →
        (_load_vector env p).1 =
          [Event.readFile p, Event.setDefaultCrs 4326, Event.toCrs 4326 3857]) := by
  constructor
  · intro gdf h
    unfold _load_vector at h
    rcases hr : env.read_file p with e | g0 <;> rw [hr] at h
    · simp at h
    · rcases hc : g0.crs with _ | c <;> simp only [hc] at h <;>
        rcases ht : env.to_crs _ 3857 g0.geom with e | g2 <;>
          rw [ht] at h <;> simp at h <;> simp [← h]
  · intro g0 hr hc
    unfold _load_vector
    rw [hr]
    simp only [hc]
    rcases ht : env.to_crs ((Option.some 4326).getD 4326) 3857 g0.geom with e | g2 <;> simp

/-- C3 witness: a CRS-less vector source is defaulted and reprojected. -/
theorem c3_vector_crs_always_3857_witness :
    GeoDataFrame.crs { geom := 101, crs := some 3857 } = some 3857 ∧
    (_load_vector envDemo "a.shp").1 =
      [Event.readFile "a.shp", Event.setDefaultCrs 4326, Event.toCrs 4326 3857] := by
  have h := c3_vector_crs_always_3857 envDemo "a.shp"
  exact ⟨h.1 { geom := 101, crs := some 3857 } rfl,
    h.2 { geom := 1, crs := none } rfl rfl⟩

/-- C4: on a successful vector run the returned frame has no second
basemap frame and its x and y limits equal exactly the reprojected
dataset's bounding box (minx, maxx) and (miny, maxy). -/
theorem c4_vector_extent_equals_bounds (env : Env) (p : String) (k : Option Nat)
    (fs : Nat × Nat) (att : Bool)
    (hex : env.path_exists p = true) (hvec : _is_vector p = true)
    (evts : List Event) (gdf : GeoDataFrame)
    (hload : _load_vector env p = (evts, .ok gdf))
    (hplot : env.plot_vector gdf.geom (k.getD 0) = .ok ())
    (hbm : env.add_basemap (.epsg (gdf.crs.getD 0)) att = .ok ()) :
    ∃ out, (show_on_basemap env p k fs att).out = .ok out ∧
      out.basemap = none ∧
      out.primary.xlim =
        some ((env.total_bounds gdf.geom).minx, (env.total_bounds gdf.geom).maxx) ∧
      out.primary.ylim =
        some ((env.total_bounds gdf.geom).miny, (env.total_bounds gdf.geom).maxy) := by
  unfold show_on_basemap
  simp [hex, hvec, hload, hplot, hbm]

/-- C4 witness: at envDemo the reprojected geometry is 101 and the frame
limits are its bounding box. -/
theorem c4_vector_extent_equals_bounds_witness :
    ∃ out, (show_on_basemap envDemo "a.shp" none (10, 10) true).out = .ok out ∧
      out.basemap = none ∧
      out.primary.xlim =
        some ((envDemo.total_bounds 101).minx, (envDemo.total_bounds 101).maxx) ∧
      out.primary.ylim =
        some ((envDemo.total_bounds 101).miny, (envDemo.total_bounds 101).maxy) :=
  c4_vector_extent_equals_bounds envDemo "a.shp" none (10, 10) true rfl (by decide)
    [Event.readFile "a.shp", Event.setDefaultCrs 4326, Event.toCrs 4326 3857]
    { geom := 101, crs := some 3857 } (by decide) rfl rfl

/-- C5: on a successful raster run the second basemap frame's limits are
exactly the bounding box transformed to EPSG 3857; the transform of the
bounds is in the trace, and no execution of show_on_basemap ever
reprojects a raster pixel grid in memory. -/
theorem c5_raster_only_bounds_transformed (env : Env) (p : String) (k : Option Nat)
    (fs : Nat × Nat) (att : Bool)
    (hex : env.path_exists p = true) (hras : _is_raster p = true)
    (src : RasterSrc) (hopen : env.rasterio_open p = .ok src)
    (hshow : env.show_raster src.rid (k.getD 0) = .ok ())
    (b : Bounds) (htb : env.transform_bounds src.crs "EPSG: 3857" src.bounds = .ok b)
    (hbm : env.add_basemap (.text "EPSG: 3857") att = .ok ()) :
    (∃ out bm, (show_on_basemap env p k fs att).out = .ok out ∧
        out.basemap = some bm ∧
        bm.xlim = some (b.minx, b.maxx) ∧ bm.ylim = some (b.miny, b.maxy)) ∧
    Event.transformBounds ∈ (show_on_basemap env p k fs att).trace ∧
    (∀ env2 p2 k2 fs2 att2,
        Event.reprojectRasterGrid ∉ (show_on_basemap env2 p2 k2 fs2 att2).trace) := by
  have hvec := is_vector_false_of_raster hras
  refine ⟨?_, ?_, fun env2 p2 k2 fs2 att2 => no_reproject_event env2 p2 k2 fs2 att2⟩
  · unfold show_on_basemap
    simp [hex, hvec, hras, load_raster_ok hopen, hshow, htb, hbm]
  · unfold show_on_basemap
    simp [hex, hvec, hras, load_raster_ok hopen, hshow, htb, hbm]

/-- C5 witness: at envDemo the native bounds (0,1,2,3) become (0,3,6,9)
and the basemap frame gets exactly those limits. -/
theorem c5_raster_only_bounds_transformed_witness :
    ∃ out bm, (show_on_basemap envDemo "a.tif" none (10, 10) true).out = .ok out ∧
      out.basemap = some bm ∧
      bm.xlim = some (0, 6) ∧ bm.ylim = some (3, 9) := by
  have h := c5_raster_only_bounds_transformed envDemo "a.tif" none (10, 10) true rfl
    (by decide)
    { rid := 7, crs := some 32633, bounds := { minx := 0, miny := 1, maxx := 2, maxy := 3 } }
    rfl rfl { minx := 0, miny := 3, maxx := 6, maxy := 9 } rfl rfl
  exact h.1

/-- C6: on a successful raster run the basemap frame draws beneath the
data frame, the data frame's background is transparent, and the
returned ax is the primary data frame. -/
theorem c6_raster_frame_order (env : Env) (p : String) (k : Option Nat)
    (fs : Nat × Nat) (att : Bool)
    (hex : env.path_exists p = true) (hras : _is_raster p = true)
    (src : RasterSrc) (hopen : env.rasterio_open p = .ok src)
    (hshow : env.show_raster src.rid (k.getD 0) = .ok ())
    (b : Bounds) (htb : env.transform_bounds src.crs "EPSG: 3857" src.bounds = .ok b)
    (hbm : env.add_basemap (.text "EPSG: 3857") att = .ok ()) :
    ∃ out, (show_on_basemap env p k fs att).out = .ok out ∧
      framesInDrawOrder out = [Frame.basemapF, Frame.primaryF] ∧
      out.primary.patchAlpha = 0 ∧ out.returned = Frame.primaryF := by
  have hvec := is_vector_false_of_raster hras
  unfold show_on_basemap
  simp [hex, hvec, hras, load_raster_ok hopen, hshow, htb, hbm, framesInDrawOrder]

/-- C6 witness: instantiated at envDemo. -/
theorem c6_raster_frame_order_witness :
    ∃ out, (show_on_basemap envDemo "a.tif" none (10, 10) true).out = .ok out ∧
      framesInDrawOrder out = [Frame.basemapF, Frame.primaryF] ∧
      out.primary.patchAlpha = 0 ∧ out.returned = Frame.primaryF :=
  c6_raster_frame_order envDemo "a.tif" none (10, 10) true rfl (by decide)
    { rid := 7, crs := some 32633, bounds := { minx := 0, miny := 1, maxx := 2, maxy := 3 } }
    rfl rfl { minx := 0, miny := 3, maxx := 6, maxy := 9 } rfl rfl

/-- C7: once the raster handle is open, a successful run closes it as
its very last action before returning, while a failing run leaves it
open (no close event ever appears on a failure path). -/
theorem c7_raster_handle_scoped (env : Env) (p : String) (k : Option Nat)
    (fs : Nat × Nat) (att : Bool)
    (hex : env.path_exists p = true) (hras : _is_raster p = true)
    (src : RasterSrc) (hopen : env.rasterio_open p = .ok src) :
    ((∃ out, (show_on_basemap env p k fs att).out = .ok out) →
        Event.openRaster p ∈ (show_on_basemap env p k fs att).trace ∧
        (show_on_basemap env p k fs att).trace.getLast? = some Event.closeRaster) ∧
    (∀ err, (show_on_basemap env p k fs att).out = .error err →
        Event.openRaster p ∈ (show_on_basemap env p k fs att).trace ∧
        Event.closeRaster ∉ (show_on_basemap env p k fs att).trace) := by
  have hvec := is_vector_false_of_raster hras
  unfold show_on_basemap
  simp only [hex, hvec, hras, Bool.true_eq_false, Bool.false_eq_true, if_false, if_true,
    load_raster_ok hopen]
  rcases hsr : env.show_raster src.rid (k.getD 0) with e | u
  · simp
  · rcases htb : env.transform_bounds src.crs "EPSG: 3857" src.bounds with e | b
    · simp
    · rcases hbm : env.add_basemap (.text "EPSG: 3857") att with e | u
      · simp
      · simp

/-- C7 witness: on the all-success environment the close is the last
event of the trace. -/
theorem c7_raster_handle_scoped_witness :
    Event.openRaster "a.tif" ∈ (show_on_basemap envDemo "a.tif" none (10, 10) true).trace ∧
    (show_on_basemap envDemo "a.tif" none (10, 10) true).trace.getLast? =
      some Event.closeRaster := by
  have h := c7_raster_handle_scoped envDemo "a.tif" none (10, 10) true rfl (by decide)
    { rid := 7, crs := some 32633, bounds := { minx := 0, miny := 1, maxx := 2, maxy := 3 } }
    rfl
  exact h.1 ⟨{ figsize := (10, 10)
               primary := { xlim := some (0, 2), ylim := some (1, 3), zorder := 2,
                            patchAlpha := 0, frameon := true }
               basemap := some { xlim := some (0, 6), ylim := some (3, 9), zorder := 0,
                                 patchAlpha := 1, frameon := false }
               returned := Frame.primaryF }, by decide⟩

/-- C8: the function itself raises only the FileNotFoundError (exactly
when the path does not exist, with its fixed message) and the
ValueError (exactly when the path exists but matches neither extension
set, with its fixed message); every other surfaced error is a library
error propagated unchanged from one of the underlying library calls. -/
theorem c8_error_taxonomy (env : Env) (p : String) (k : Option Nat)
    (fs : Nat × Nat) (att : Bool) :
    (∀ m, (show_on_basemap env p k fs att).out = .error (.fileNotFound m) →
        env.path_exists p = false ∧ m = notFoundMsg p) ∧
    (∀ m, (show_on_basemap env p k fs att).out = .error (.valueError m) →
        env.path_exists p = true ∧ _is_vector p = false ∧ _is_raster p = false ∧
        m = unrecognizedMsg p) ∧
    (∀ e, (show_on_basemap env p k fs att).out = .error (.libError e) →
        env.read_file p = .error e ∨
        (∃ c g, env.to_crs c 3857 g = .error e) ∨
        (∃ g kk, env.plot_vector g kk = .error e) ∨
        (∃ c b, env.add_basemap c b = .error e) ∨
        env.rasterio_open p = .error e ∨
        (∃ r kk, env.show_raster r kk = .error e) ∨
        (∃ c s b, env.transform_bounds c s b = .error e)) := by
  unfold show_on_basemap
  by_cases hex : env.path_exists p = false
  · rw [if_pos hex]
    refine ⟨?_, ?_, ?_⟩ <;> intro x hx <;> simp at hx
    exact ⟨hex, hx.symm⟩
  · rw [if_neg hex]
    have hext : env.path_exists p = true := by
      revert hex; cases env.path_exists p <;> simp
    by_cases hv : _is_vector p = true
    · simp only [hv, if_true]
      rcases hlv : _load_vector env p with ⟨evts, lout⟩
      rcases lout with e0 | gdf
      · refine ⟨?_, ?_, ?_⟩ <;> intro x hx <;> simp at hx
        subst hx
        rcases load_vector_error hlv with h | h
        · exact Or.inl h
        · exact Or.inr (Or.inl h)
      · rcases hplot : env.plot_vector gdf.geom (k.getD 0) with e0 | u
        · refine ⟨?_, ?_, ?_⟩ <;> intro x hx <;> simp [hplot] at hx
          subst hx
          exact Or.inr (Or.inr (Or.inl ⟨_, _, hplot⟩))
        · rcases hbm : env.add_basemap (.epsg (gdf.crs.getD 0)) att with e0 | u
          · refine ⟨?_, ?_, ?_⟩ <;> intro x hx <;> simp [hplot, hbm] at hx
            subst hx
            exact Or.inr (Or.inr (Or.inr (Or.inl ⟨_, _, hbm⟩)))
          · refine ⟨?_, ?_, ?_⟩ <;> intro x hx <;> simp [hplot, hbm] at hx
    · simp only [hv]
      by_cases hr : _is_raster p = true
      · simp only [hr, if_true, if_false, Bool.false_eq_true]
        rcases hopen : env.rasterio_open p with e0 | src
        · have hlr : _load_raster env p = ([Event.openRaster p], .error e0) := by
            unfold _load_raster; rw [hopen]
          refine ⟨?_, ?_, ?_⟩ <;> intro x hx <;> simp [hlr] at hx
          subst hx
          exact Or.inr (Or.inr (Or.inr (Or.inr (Or.inl rfl))))
        · have hlr := load_raster_ok hopen
          rcases hsr : env.show_raster src.rid (k.getD 0) with e0 | u
          · refine ⟨?_, ?_, ?_⟩ <;> intro x hx <;> simp [hlr, hsr] at hx
            subst hx
            exact Or.inr (Or.inr (Or.inr (Or.inr (Or.inr (Or.inl ⟨_, _, hsr⟩)))))
          · rcases htb : env.transform_bounds src.crs "EPSG: 3857" src.bounds with e0 | b
            · refine ⟨?_, ?_, ?_⟩ <;> intro x hx <;> simp [hlr, hsr, htb] at hx
              subst hx
              exact Or.inr (Or.inr (Or.inr (Or.inr (Or.inr (Or.inr ⟨_, _, _, htb⟩)))))
            · rcases hbm : env.add_basemap (.text "EPSG: 3857") att with e0 | u
              · refine ⟨?_, ?_, ?_⟩ <;> intro x hx <;> simp [hlr, hsr, htb, hbm] at hx
                subst hx
                exact Or.inr (Or.inr (Or.inr (Or.inl ⟨_, _, hbm⟩)))
              · refine ⟨?_, ?_, ?_⟩ <;> intro x hx <;> simp [hlr, hsr, htb, hbm] at hx
      · have hrf : _is_raster p = false := by revert hr; cases _is_raster p <;> simp
        have hvf : _is_vector p = false := by revert hv; cases _is_vector p <;> simp
        simp only [hrf, hvf, Bool.false_eq_true, if_false]
        refine ⟨?_, ?_, ?_⟩ <;> intro x hx <;> simp at hx
        exact ⟨hext, trivial, trivial, hx.symm⟩

/-- C8 witness: a failing vector read surfaces as exactly that library
error. -/
theorem c8_error_taxonomy_witness :
    envReadFail.read_file "a.shp" = .error demoErr ∨
    (∃ c g, envReadFail.to_crs c 3857 g = .error demoErr) ∨
    (∃ g kk, envReadFail.plot_vector g kk = .error demoErr) ∨
    (∃ c b, envReadFail.add_basemap c b = .error demoErr) ∨
    envReadFail.rasterio_open "a.shp" = .error demoErr ∨
    (∃ r kk, envReadFail.show_raster r kk = .error demoErr) ∨
    (∃ c s b, envReadFail.transform_bounds c s b = .error demoErr) :=
  (c8_error_taxonomy envReadFail "a.shp" none (10, 10) true).2.2 demoErr (by decide)

/-- C9: a call reads only the oracles, and what a call persists (open
handles, accumulated figures) never includes the oracles, so a later
call with any arguments behaves exactly as if the first call had not
happened, and repeating the first call gives the same result. -/
theorem c9_no_shared_state (w : World) (p1 p2 : String) (k1 k2 : Option Nat)
    (fs1 fs2 : Nat × Nat) (a1 a2 : Bool) :
    (applyRun w (show_on_basemap w.env p1 k1 fs1 a1)).env = w.env ∧
    show_on_basemap (applyRun w (show_on_basemap w.env p1 k1 fs1 a1)).env p2 k2 fs2 a2 =
      show_on_basemap w.env p2 k2 fs2 a2 ∧
    show_on_basemap (applyRun w (show_on_basemap w.env p1 k1 fs1 a1)).env p1 k1 fs1 a1 =
      show_on_basemap w.env p1 k1 fs1 a1 :=
  ⟨rfl, rfl, rfl⟩

/-- C10: classification looks only at the lowercased final suffix of the
path (so a name ending in .tar.json is a vector), the two extension
sets never both match, and an existing path with an empty suffix falls
through to the unsupported-extension ValueError. -/
theorem c10_classification_by_suffix (env : Env) (p : String) (k : Option Nat)
    (fs : Nat × Nat) (att : Bool) :
    _is_vector p = vectorExts.contains (strLower (pySuffix p)) ∧
    _is_raster p = rasterExts.contains (strLower (pySuffix p)) ∧
    (_is_vector p && _is_raster p) = false ∧
    (∀ q, pySuffix q = pySuffix p →
        _is_vector q = _is_vector p ∧ _is_raster q = _is_raster p) ∧
    (env.path_exists p = true → pySuffix p = "" →
        (show_on_basemap env p k fs att).out = .error (.valueError (unrecognizedMsg p))) ∧
    _is_vector "a.tar.json" = true := by
  refine ⟨rfl, rfl, ?_, ?_, ?_, by decide⟩
  · cases hb : _is_vector p
    · simp
    · have h2 := vector_not_raster ((is_vector_iff p).mp hb)
      have hrf : _is_raster p = false := by
        cases hr : _is_raster p
        · rfl
        · exact absurd ((is_raster_iff p).mp hr) h2
      simp [hrf]
  · intro q hq
    exact ⟨by simp only [_is_vector, hq], by simp only [_is_raster, hq]⟩
  · intro hex hsuf
    have hlow : strLower (pySuffix p) = "" := by rw [hsuf]; rfl
    have hvf : _is_vector p = false := by
      unfold _is_vector; rw [hlow]; decide
    have hrf : _is_raster p = false := by
      unfold _is_raster; rw [hlow]; decide
    unfold show_on_basemap
    simp [hex, hvf, hrf]

/-- C10 witness: an existing extensionless path raises the ValueError,
and a .tar.json name is classified as vector. -/
theorem c10_classification_by_suffix_witness :
    (show_on_basemap envDemo "noext" none (10, 10) true).out =
      .error (.valueError (unrecognizedMsg "noext")) ∧
    _is_vector "a.tar.json" = true := by
  have h := c10_classification_by_suffix envDemo "noext" none (10, 10) true
  exact ⟨h.2.2.2.2.1 rfl (by decide), h.2.2.2.2.2⟩

end Arrive
